import Mathlib

/-!
Verification of the hotel-booking server (`server/server.js`).

The server keeps two collections: rooms and bookings.  Four routes matter:
`GET /api/rooms` (list rooms sorted by `roomNumber` ascending),
`GET /api/bookings` (list bookings sorted by `createdAt` descending),
`POST /api/book` (validate truthiness of the four body fields, look the room
up, refuse unknown or unavailable rooms, otherwise persist a booking with
`totalAmount = price * parseInt(days)` and flip the room's `available` flag
to `false`), and `POST /api/cancel` (validate truthiness of `id` and
`roomNumber`, delete the booking by id, then set `available := true` on the
first room whose number equals the *request's* `roomNumber`).

We embed the store, the request bodies and the two mutating handlers as pure
Lean functions and prove the specification's claims about them.
-/

namespace Hotel

/-- A room document (`roomSchema`): number, type, price, availability. -/
structure Room where
  roomNumber : String
  roomType : String
  price : Int
  available : Bool
deriving Repr, DecidableEq

/-- A booking document (`bookingSchema`, with `timestamps: true`): the
generated `_id` (modelled as the decimal string of a counter), the guest
fields, the referenced room number, the parsed day count, the computed
total, and the creation timestamp. -/
structure Booking where
  id : String
  guestName : String
  guestPhone : String
  roomNumber : String
  days : Int
  totalAmount : Int
  createdAt : Nat
deriving Repr, DecidableEq

/-- The whole database plus the id/timestamp generator. -/
structure Store where
  rooms : List Room
  bookings : List Booking
  nextId : Nat
deriving Repr, DecidableEq

/-- Body of `POST /api/book`; every field may be absent. -/
structure BookReq where
  guestName : Option String
  guestPhone : Option String
  roomNumber : Option String
  days : Option Rat
deriving Repr, DecidableEq

/-- Body of `POST /api/cancel`. -/
structure CancelReq where
  id : Option String
  roomNumber : Option String
deriving Repr, DecidableEq

/-- Outcome of `POST /api/book`: 400 "All fields are required",
404 "Room not found", 400 "Room is not available", or 201 with the booking. -/
inductive BookResp where
  | validationErr
  | roomNotFound
  | roomUnavailable
  | created (b : Booking)
deriving Repr, DecidableEq

/-- Outcome of `POST /api/cancel`: 400 "Booking ID and room number are
required", 404 "Booking not found", or 200 "Booking Cancelled Successfully!". -/
inductive CancelResp where
  | validationErr
  | bookingNotFound
  | cancelled
deriving Repr, DecidableEq

/-- JavaScript truthiness of an optional string: `!s` is true exactly when
the field is absent (`undefined`) or the empty string. -/
def truthyStr : Option String → Bool
  | none => false
  | some s => s ≠ ""

/-- JavaScript truthiness of an optional number: `!n` is true exactly when
the field is absent or `0`.  (Negative numbers are truthy.) -/
def truthyNum : Option Rat → Bool
  | none => false
  | some q => q ≠ 0

/-- The `parseInt` conversion applied to a JavaScript number: truncation toward zero
(`parseInt(2.5) = 2`, `parseInt(-2.5) = -2`). -/
def jsParseInt (q : Rat) : Int := q.num.tdiv q.den

/-- Model of `Room.findOne({ roomNumber })`: the first room with the given number. -/
def findOneRoom (rooms : List Room) (rn : String) : Option Room :=
  rooms.find? (fun r => r.roomNumber == rn)

/-- Saving an availability update on the room found by `findOne` /
`findOneAndUpdate({ roomNumber }, { available })`: the first room whose
number matches gets its `available` flag replaced; nothing else changes. -/
def saveRoomAvail (rooms : List Room) (rn : String) (b : Bool) : List Room :=
  match rooms with
  | [] => []
  | r :: rest =>
    if r.roomNumber == rn then { r with available := b } :: rest
    else r :: saveRoomAvail rest rn b

/-- The `/api/book` guard `!guestName || !guestPhone || !roomNumber || !days`. -/
def bookCheck (req : BookReq) : Bool :=
  truthyStr req.guestName && truthyStr req.guestPhone &&
  truthyStr req.roomNumber && truthyNum req.days

/-- The booking document built on the success path of `/api/book`. -/
def mkBooking (s : Store) (req : BookReq) (room : Room) : Booking :=
  { id := toString s.nextId
    guestName := (req.guestName.getD "").trim
    guestPhone := (req.guestPhone.getD "").trim
    roomNumber := req.roomNumber.getD ""
    days := jsParseInt (req.days.getD 0)
    totalAmount := room.price * jsParseInt (req.days.getD 0)
    createdAt := s.nextId }

/-- The `POST /api/book` handler. -/
def book (s : Store) (req : BookReq) : Store × BookResp :=
  if bookCheck req then
    match findOneRoom s.rooms (req.roomNumber.getD "") with
    | none => (s, .roomNotFound)
    | some room =>
      if room.available then
        let b := mkBooking s req room
        ({ rooms := saveRoomAvail s.rooms (req.roomNumber.getD "") false
           bookings := s.bookings ++ [b]
           nextId := s.nextId + 1 }, .created b)
      else (s, .roomUnavailable)
  else (s, .validationErr)

/-- Model of `Booking.findByIdAndDelete(id)`: returns the deleted document (if any)
and the remaining collection, removing only the first id match. -/
def findByIdAndDelete (bs : List Booking) (id : String) :
    Option Booking × List Booking :=
  match bs with
  | [] => (none, [])
  | b :: rest =>
    if b.id == id then (some b, rest)
    else
      let p := findByIdAndDelete rest id
      (p.1, b :: p.2)

/-- The `/api/cancel` guard `!id || !roomNumber`. -/
def cancelCheck (req : CancelReq) : Bool :=
  truthyStr req.id && truthyStr req.roomNumber

/-- The `POST /api/cancel` handler.  Note that the room updated is the one
named by the request body, not the one stored on the deleted booking. -/
def cancel (s : Store) (req : CancelReq) : Store × CancelResp :=
  if cancelCheck req then
    let fd := findByIdAndDelete s.bookings (req.id.getD "")
    match fd.1 with
    | none => (s, .bookingNotFound)
    | some _ =>
      ({ s with bookings := fd.2
                rooms := saveRoomAvail s.rooms (req.roomNumber.getD "") true },
       .cancelled)
  else (s, .validationErr)

/-- Handler of `GET /api/rooms`: `Room.find().sort({ roomNumber: 1 })`. -/
def listRooms (s : Store) : List Room :=
  s.rooms.mergeSort (fun a b => decide (a.roomNumber ≤ b.roomNumber))

/-- Handler of `GET /api/bookings`: `Booking.find().sort({ createdAt: -1 })`. -/
def listBookings (s : Store) : List Booking :=
  s.bookings.mergeSort (fun a b => decide (b.createdAt ≤ a.createdAt))

/-- The three rooms inserted by `initializeData` on an empty database. -/
def seedRooms : List Room :=
  [ { roomNumber := "101", roomType := "Single", price := 1000, available := true }
  , { roomNumber := "102", roomType := "Double", price := 1500, available := true }
  , { roomNumber := "103", roomType := "Deluxe", price := 2000, available := true } ]

/-- The store right after startup seeding. -/
def initialStore : Store := { rooms := seedRooms, bookings := [], nextId := 0 }

/-- One incoming mutating request. -/
inductive Request where
  | bookReq (r : BookReq)
  | cancelReq (r : CancelReq)
deriving Repr, DecidableEq

/-- The state transition of one request (ignoring the response). -/
def step (s : Store) : Request → Store
  | .bookReq r => (book s r).1
  | .cancelReq r => (cancel s r).1

/-- Running a sequence of requests from a state. -/
def run (s : Store) : List Request → Store
  | [] => s
  | r :: rs => run (step s r) rs

/-- How many bookings currently reference a room number. -/
def refCount (bs : List Booking) (rn : String) : Nat :=
  bs.countP (fun b => b.roomNumber == rn)

/-- The spec's invariant: a room is `available = false` iff exactly one
booking references its number. -/
def invariant (s : Store) : Prop :=
  ∀ r ∈ s.rooms, (r.available = false ↔ refCount s.bookings r.roomNumber = 1)

instance (s : Store) : Decidable (invariant s) := by
  unfold invariant; infer_instance

/-- Room numbers are pairwise distinct (true of the seed data and preserved
by both handlers, which never add or remove rooms). -/
def roomsUnique (s : Store) : Prop :=
  (s.rooms.map Room.roomNumber).Nodup

/-- The inductive strengthening of the invariant: an available room has no
booking referencing it, an unavailable one exactly one. -/
def occCount (s : Store) : Prop :=
  ∀ r ∈ s.rooms, refCount s.bookings r.roomNumber = (if r.available then 0 else 1)

/-- The full inductive invariant. -/
def strongInv (s : Store) : Prop := roomsUnique s ∧ occCount s

instance (s : Store) : Decidable (strongInv s) := by
  unfold strongInv roomsUnique occCount; infer_instance

/-- A request is well-formed in a state when, if it is a cancellation that
will find a booking, its `roomNumber` field carries that booking's room
number.  The bundled front-end always sends exactly this
(`cancelBooking(booking._id, booking.roomNumber)`). -/
def goodStep (s : Store) : Request → Prop
  | .bookReq _ => True
  | .cancelReq r => ∀ b, (findByIdAndDelete s.bookings (r.id.getD "")).1 = some b →
      r.roomNumber = some b.roomNumber

instance goodStepDecidable (s : Store) (r : Request) : Decidable (goodStep s r) :=
  match r with
  | .bookReq _ => isTrue trivial
  | .cancelReq cr =>
    match h : (findByIdAndDelete s.bookings (cr.id.getD "")).1 with
    | none => isTrue (by
        intro b hb
        rw [h] at hb
        cases hb)
    | some b =>
      if hp : cr.roomNumber = some b.roomNumber then
        isTrue (by
          intro b' hb'
          rw [h] at hb'
          have hbb := Option.some.inj hb'
          rw [← hbb]
          exact hp)
      else isFalse (fun hall => hp (hall b h))

/-- Every request of the sequence is well-formed in the state it reaches. -/
def goodRun (s : Store) : List Request → Prop
  | [] => True
  | r :: rs => goodStep s r ∧ goodRun (step s r) rs

instance goodRunDecidable (s : Store) : (reqs : List Request) → Decidable (goodRun s reqs)
  | [] => isTrue trivial
  | r :: rs =>
    have : Decidable (goodRun (step s r) rs) := goodRunDecidable (step s r) rs
    inferInstanceAs (Decidable (goodStep s r ∧ goodRun (step s r) rs))

/-! ### Concrete inputs used in counterexamples and witnesses -/

/-- The first seeded room. -/
def room101 : Room :=
  { roomNumber := "101", roomType := "Single", price := 1000, available := true }

/-- A well-formed booking request for room 101. -/
def c1BookReq : BookReq :=
  { guestName := some "Alice", guestPhone := some "9"
    roomNumber := some "101", days := some 1 }

/-- A cancellation of booking `"0"` that names room 102 instead of the
booking's own room 101. -/
def c1BadCancel : CancelReq := { id := some "0", roomNumber := some "102" }

/-- Book room 101, then cancel that booking while naming room 102. -/
def c1BadReqs : List Request := [.bookReq c1BookReq, .cancelReq c1BadCancel]

/-- A cancellation of booking `"0"` naming its own room 101. -/
def c1GoodCancel : CancelReq := { id := some "0", roomNumber := some "101" }

/-- Book room 101, then cancel that booking naming room 101. -/
def c1GoodReqs : List Request := [.bookReq c1BookReq, .cancelReq c1GoodCancel]

/-- A fully valid booking request for two days in room 101. -/
def c2Req : BookReq :=
  { guestName := some "Alice", guestPhone := some "12345"
    roomNumber := some "101", days := some ((2 : Int) : Rat) }

/-- A booking request naming a room that does not exist. -/
def c3UnknownReq : BookReq :=
  { guestName := some "Bob", guestPhone := some "1"
    roomNumber := some "999", days := some 1 }

/-- A store whose single room is already occupied. -/
def c3BusyStore : Store :=
  { rooms := [{ roomNumber := "101", roomType := "Single", price := 1000, available := false }]
    bookings := [{ id := "0", guestName := "Ann", guestPhone := "9", roomNumber := "101"
                   days := 1, totalAmount := 1000, createdAt := 0 }]
    nextId := 1 }

/-- A booking request for the occupied room of `c3BusyStore`. -/
def c3BusyReq : BookReq :=
  { guestName := some "Bob", guestPhone := some "1"
    roomNumber := some "101", days := some 1 }

/-- A booking for room 101 with id `"0"`. -/
def c4Booking : Booking :=
  { id := "0", guestName := "Ann", guestPhone := "9", roomNumber := "101"
    days := 1, totalAmount := 1000, createdAt := 0 }

/-- A store where `c4Booking` occupies room 101 and room 102 is free. -/
def c4Store : Store :=
  { rooms := [{ roomNumber := "101", roomType := "Single", price := 1000, available := false }
            , { roomNumber := "102", roomType := "Double", price := 1500, available := true }]
    bookings := [c4Booking]
    nextId := 1 }

/-- A cancellation of `c4Booking` that names room 102, not the booking's
room 101. -/
def c4BadReq : CancelReq := { id := some "0", roomNumber := some "102" }

/-- A cancellation of `c4Booking` that names its own room 101. -/
def c4GoodReq : CancelReq := { id := some "0", roomNumber := some "101" }

/-- A cancellation whose id matches no booking of the seeded store. -/
def c5Req : CancelReq := { id := some "42", roomNumber := some "101" }

/-- A booking request with a negative day count: every field is truthy in
JavaScript, so the validation guard passes. -/
def c6Req : BookReq :=
  { guestName := some "Bob", guestPhone := some "12345"
    roomNumber := some "101", days := some (-2 : Rat) }

/-- A booking request with a missing guest name. -/
def c6MissingReq : BookReq :=
  { guestName := none, guestPhone := some "1"
    roomNumber := some "101", days := some 1 }

/-- A booking for room 101 with id `"0"`. -/
def c8Booking : Booking :=
  { id := "0", guestName := "Eve", guestPhone := "8", roomNumber := "101"
    days := 2, totalAmount := 2000, createdAt := 0 }

/-- A store where `c8Booking` occupies room 101. -/
def c8Store : Store :=
  { rooms := [{ roomNumber := "101", roomType := "Single", price := 1000, available := false }]
    bookings := [c8Booking]
    nextId := 1 }

/-- A cancellation of `c8Booking` naming a room number that matches no
room at all. -/
def c8Req : CancelReq := { id := some "0", roomNumber := some "777" }

/-- A booking request with padded guest fields and a fractional day count. -/
def c10Req : BookReq :=
  { guestName := some " Bob ", guestPhone := some " 12 "
    roomNumber := some "101", days := some (mkRat 5 2) }

/-! ### Structural lemmas about the store primitives -/

/-- The `parseInt` model is the identity on (casts of) integers. -/
theorem jsParseInt_intCast (d : Int) : jsParseInt ((d : Rat)) = d := by
  simp [jsParseInt]

/-- Characterisation of `findOne` + availability save: either no room
matches (and the list is untouched), or the list splits at the first match,
which is the found room, and only that room's `available` flag changes. -/
theorem saveRoomAvail_split (rooms : List Room) (rn : String) (b : Bool) :
    (findOneRoom rooms rn = none ∧ saveRoomAvail rooms rn b = rooms) ∨
    (∃ l1 r l2, rooms = l1 ++ r :: l2 ∧ r.roomNumber = rn ∧
      (∀ x ∈ l1, x.roomNumber ≠ rn) ∧
      findOneRoom rooms rn = some r ∧
      saveRoomAvail rooms rn b = l1 ++ { r with available := b } :: l2) := by
  induction rooms with
  | nil => left; simp [findOneRoom, saveRoomAvail]
  | cons r rest ih =>
    by_cases h : r.roomNumber = rn
    · right
      exact ⟨[], r, rest, by simp, h,
        by simp,
        by simp [findOneRoom, List.find?_cons_of_pos, h],
        by simp [saveRoomAvail, h]⟩
    · rcases ih with ⟨hf, hs⟩ | ⟨l1, r0, l2, hr, hrn, hl1, hf, hs⟩
      · left
        refine ⟨?_, ?_⟩
        · simpa [findOneRoom, List.find?_cons_of_neg, h] using hf
        · simp [saveRoomAvail, h, hs]
      · right
        refine ⟨r :: l1, r0, l2, by simp [hr], hrn, ?_, ?_, ?_⟩
        · intro x hx
          rcases List.mem_cons.mp hx with hx | hx
          · simpa [hx] using h
          · exact hl1 x hx
        · simpa [findOneRoom, List.find?_cons_of_neg, h] using hf
        · simp [saveRoomAvail, h]
          exact hs

/-- The availability save never changes any room's number (nor the order,
nor the count of rooms). -/
theorem saveRoomAvail_map_roomNumber (rooms : List Room) (rn : String) (b : Bool) :
    (saveRoomAvail rooms rn b).map Room.roomNumber = rooms.map Room.roomNumber := by
  induction rooms with
  | nil => rfl
  | cons r rest ih =>
    by_cases h : r.roomNumber = rn
    · simp [saveRoomAvail, h]
    · simp [saveRoomAvail, h, ih]

/-- Lookup skips a prefix with no matching room number. -/
theorem findOneRoom_append_none (l1 l : List Room) (rn : String)
    (h : ∀ x ∈ l1, x.roomNumber ≠ rn) :
    findOneRoom (l1 ++ l) rn = findOneRoom l rn := by
  induction l1 with
  | nil => rfl
  | cons r rest ih =>
    have hr : r.roomNumber ≠ rn := h r (by simp)
    have := ih (fun x hx => h x (by simp [hx]))
    simpa [findOneRoom, List.find?_cons_of_neg, hr] using this

/-- No room matches iff every room has a different number. -/
theorem findOneRoom_eq_none (rooms : List Room) (rn : String) :
    findOneRoom rooms rn = none ↔ ∀ r ∈ rooms, r.roomNumber ≠ rn := by
  simp [findOneRoom, List.find?_eq_none]

/-- After saving `available := b` on the first `rn` room, `findOne rn`
returns the same room with just the flag replaced. -/
theorem findOneRoom_saveRoomAvail_self (rooms : List Room) (rn : String) (b : Bool) :
    findOneRoom (saveRoomAvail rooms rn b) rn =
      (findOneRoom rooms rn).map (fun r => { r with available := b }) := by
  rcases saveRoomAvail_split rooms rn b with ⟨hf, hs⟩ | ⟨l1, r, l2, hr, hrn, hl1, hf, hs⟩
  · simp [hf, hs]
  · rw [hs, hf, findOneRoom_append_none l1 _ rn hl1]
    simp [findOneRoom, List.find?_cons_of_pos, hrn]

/-- Saving on a room number that does not occur is a no-op. -/
theorem saveRoomAvail_eq_of_none (rooms : List Room) (rn : String) (b : Bool)
    (h : findOneRoom rooms rn = none) : saveRoomAvail rooms rn b = rooms := by
  rcases saveRoomAvail_split rooms rn b with ⟨_, hs⟩ | ⟨l1, r, l2, _, _, _, hf, _⟩
  · exact hs
  · rw [h] at hf; cases hf

/-- Lookup of a different room number is unaffected by the save. -/
theorem findOneRoom_saveRoomAvail_ne (rooms : List Room) (rn rn' : String) (b : Bool)
    (h : rn' ≠ rn) :
    findOneRoom (saveRoomAvail rooms rn b) rn' = findOneRoom rooms rn' := by
  rcases saveRoomAvail_split rooms rn b with ⟨_, hs⟩ | ⟨l1, r, l2, hrooms, hrn, _, _, hs⟩
  · rw [hs]
  · have hp : ¬ (r.roomNumber == rn') = true := by
      rw [hrn]
      simp only [beq_iff_eq]
      exact fun hh => h hh.symm
    have e2 : List.find? (fun x => x.roomNumber == rn') ({ r with available := b } :: l2) =
        List.find? (fun x => x.roomNumber == rn') l2 := List.find?_cons_of_neg _ hp
    have e3 : List.find? (fun x => x.roomNumber == rn') (r :: l2) =
        List.find? (fun x => x.roomNumber == rn') l2 := List.find?_cons_of_neg _ hp
    rw [hs, hrooms]
    unfold findOneRoom
    rw [List.find?_append, List.find?_append, e2, e3]

/-- Characterisation of `findByIdAndDelete`: either no booking has the id
(and the collection is returned unchanged), or the collection splits at the
first id match, the deleted document is returned, and exactly that document
is removed. -/
theorem findByIdAndDelete_split (bs : List Booking) (id : String) :
    ((findByIdAndDelete bs id).1 = none ∧ (findByIdAndDelete bs id).2 = bs ∧
      ∀ x ∈ bs, x.id ≠ id) ∨
    (∃ l1 b l2, bs = l1 ++ b :: l2 ∧ b.id = id ∧ (∀ x ∈ l1, x.id ≠ id) ∧
      (findByIdAndDelete bs id).1 = some b ∧
      (findByIdAndDelete bs id).2 = l1 ++ l2) := by
  induction bs with
  | nil => left; simp [findByIdAndDelete]
  | cons b rest ih =>
    by_cases h : b.id = id
    · right
      exact ⟨[], b, rest, by simp, h, by simp,
        by simp [findByIdAndDelete, h],
        by simp [findByIdAndDelete, h]⟩
    · rcases ih with ⟨hf, hs, hall⟩ | ⟨l1, b0, l2, hr, hid, hl1, hf, hs⟩
      · left
        refine ⟨by simp [findByIdAndDelete, h, hf], by simp [findByIdAndDelete, h, hs], ?_⟩
        intro x hx
        rcases List.mem_cons.mp hx with hx | hx
        · simpa [hx] using h
        · exact hall x hx
      · right
        refine ⟨b :: l1, b0, l2, by simp [hr], hid, ?_,
          by simp [findByIdAndDelete, h, hf], by simp [findByIdAndDelete, h, hs]⟩
        intro x hx
        rcases List.mem_cons.mp hx with hx | hx
        · simpa [hx] using h
        · exact hl1 x hx

/-- Reference counts add over concatenation. -/
theorem refCount_append (bs cs : List Booking) (rn : String) :
    refCount (bs ++ cs) rn = refCount bs rn + refCount cs rn := by
  simp [refCount, List.countP_append]

/-! ### Branch lemmas for the two handlers -/

/-- Branch of `/api/book` with a falsy field: 400, store untouched. -/
theorem book_validation (s : Store) (req : BookReq) (h : bookCheck req = false) :
    book s req = (s, .validationErr) := by
  simp [book, h]

/-- Branch of `/api/book` with no matching room: 404, store untouched. -/
theorem book_notFound (s : Store) (req : BookReq)
    (h1 : bookCheck req = true)
    (h2 : findOneRoom s.rooms (req.roomNumber.getD "") = none) :
    book s req = (s, .roomNotFound) := by
  simp [book, h1, h2]

/-- Branch of `/api/book` on an unavailable room: 400, store untouched. -/
theorem book_unavailable (s : Store) (req : BookReq) (room : Room)
    (h1 : bookCheck req = true)
    (h2 : findOneRoom s.rooms (req.roomNumber.getD "") = some room)
    (h3 : room.available = false) :
    book s req = (s, .roomUnavailable) := by
  simp [book, h1, h2, h3]

/-- Branch of `/api/book` on the success path: the booking is appended, the room's flag is
saved to `false`, the id counter advances, and the booking is returned. -/
theorem book_success (s : Store) (req : BookReq) (room : Room)
    (h1 : bookCheck req = true)
    (h2 : findOneRoom s.rooms (req.roomNumber.getD "") = some room)
    (h3 : room.available = true) :
    book s req =
      ({ rooms := saveRoomAvail s.rooms (req.roomNumber.getD "") false
         bookings := s.bookings ++ [mkBooking s req room]
         nextId := s.nextId + 1 }, .created (mkBooking s req room)) := by
  simp [book, h1, h2, h3]

/-- Branch of `/api/cancel` with a falsy field: 400, store untouched. -/
theorem cancel_validation (s : Store) (req : CancelReq) (h : cancelCheck req = false) :
    cancel s req = (s, .validationErr) := by
  simp [cancel, h]

/-- Branch of `/api/cancel` with no matching booking id: 404, store untouched. -/
theorem cancel_notFound (s : Store) (req : CancelReq)
    (h1 : cancelCheck req = true)
    (h2 : (findByIdAndDelete s.bookings (req.id.getD "")).1 = none) :
    cancel s req = (s, .bookingNotFound) := by
  simp [cancel, h1, h2]

/-- Branch of `/api/cancel` on the success path: the booking found by id is removed and the
first room matching the request's `roomNumber` is saved as available. -/
theorem cancel_success (s : Store) (req : CancelReq) (b : Booking)
    (h1 : cancelCheck req = true)
    (h2 : (findByIdAndDelete s.bookings (req.id.getD "")).1 = some b) :
    cancel s req =
      ({ rooms := saveRoomAvail s.rooms (req.roomNumber.getD "") true
         bookings := (findByIdAndDelete s.bookings (req.id.getD "")).2
         nextId := s.nextId }, .cancelled) := by
  simp [cancel, h1, h2]

/-! ### Preservation of the occupancy invariant -/

/-- Rooms to the right of a split point share no number with it when all
room numbers are distinct. -/
theorem nodup_split_right (l1 l2 : List Room) (r : Room)
    (hu : ((l1 ++ r :: l2).map Room.roomNumber).Nodup) :
    ∀ x ∈ l2, x.roomNumber ≠ r.roomNumber := by
  rw [List.map_append, List.map_cons] at hu
  have h2 := hu.of_append_right
  have h3 : r.roomNumber ∉ l2.map Room.roomNumber := (List.nodup_cons.mp h2).1
  intro x hx heq
  exact h3 (List.mem_map.mpr ⟨x, hx, heq⟩)

/-- The new booking does not count toward other room numbers. -/
theorem refCount_mkBooking_ne (s : Store) (req : BookReq) (room : Room)
    (rn' : String) (h : rn' ≠ req.roomNumber.getD "") :
    refCount [mkBooking s req room] rn' = 0 := by
  simp [refCount, List.countP_cons, mkBooking]
  exact fun hh => h hh.symm

/-- The new booking counts once toward the requested room number. -/
theorem refCount_mkBooking_self (s : Store) (req : BookReq) (room : Room) :
    refCount [mkBooking s req room] (req.roomNumber.getD "") = 1 := by
  simp [refCount, List.countP_cons, mkBooking]

/-- The booking handler preserves the strengthened occupancy invariant, for
every request body. -/
theorem strongInv_book (s : Store) (req : BookReq) (hs : strongInv s) :
    strongInv (book s req).1 := by
  obtain ⟨hu, hc⟩ := hs
  by_cases h1 : bookCheck req = true
  case neg =>
    rw [book_validation s req (Bool.eq_false_iff.mpr h1)]
    exact ⟨hu, hc⟩
  case pos =>
  cases h2 : findOneRoom s.rooms (req.roomNumber.getD "") with
  | none =>
    rw [book_notFound s req h1 h2]
    exact ⟨hu, hc⟩
  | some room =>
    by_cases h3 : room.available = true
    case neg =>
      rw [book_unavailable s req room h1 h2 (Bool.eq_false_iff.mpr h3)]
      exact ⟨hu, hc⟩
    case pos =>
    rw [book_success s req room h1 h2 h3]
    constructor
    · show ((saveRoomAvail s.rooms (req.roomNumber.getD "") false).map
        Room.roomNumber).Nodup
      rw [saveRoomAvail_map_roomNumber]
      exact hu
    · intro r' hr'
      rcases saveRoomAvail_split s.rooms (req.roomNumber.getD "") false with
        ⟨hf, _⟩ | ⟨l1, r0, l2, hrooms, hrn, hl1, hf, hsave⟩
      · rw [h2] at hf; cases hf
      · have hr0 : room = r0 := by rw [h2] at hf; exact Option.some.inj hf
        subst hr0
        rw [hsave] at hr'
        show refCount (s.bookings ++ [mkBooking s req room]) r'.roomNumber
          = if r'.available then 0 else 1
        rcases List.mem_append.mp hr' with hmem | hmem
        · have hne : r'.roomNumber ≠ req.roomNumber.getD "" := hl1 r' hmem
          have hold : refCount s.bookings r'.roomNumber = if r'.available then 0 else 1 :=
            hc r' (by rw [hrooms]; exact List.mem_append.mpr (Or.inl hmem))
          rw [refCount_append, refCount_mkBooking_ne s req room _ hne, hold, Nat.add_zero]
        · rcases List.mem_cons.mp hmem with hmem | hmem
          · have hold : refCount s.bookings room.roomNumber = 0 := by
              have := hc room (by rw [hrooms]; exact
                List.mem_append.mpr (Or.inr (List.mem_cons_self _ _)))
              rw [h3] at this
              simpa using this
            have hrn' : r'.roomNumber = req.roomNumber.getD "" := by rw [hmem, hrn]
            have hav : r'.available = false := by rw [hmem]
            rw [hrn', hav, refCount_append]
            rw [hrn] at hold
            rw [hold, refCount_mkBooking_self s req room]
            simp
          · have hne : r'.roomNumber ≠ req.roomNumber.getD "" := by
              have hu' : ((l1 ++ room :: l2).map Room.roomNumber).Nodup := by
                rw [← hrooms]; exact hu
              have := nodup_split_right l1 l2 room hu' r' hmem
              rw [hrn] at this
              exact this
            have hold : refCount s.bookings r'.roomNumber = if r'.available then 0 else 1 :=
              hc r' (by rw [hrooms]; exact
                List.mem_append.mpr (Or.inr (List.mem_cons_of_mem _ hmem)))
            rw [refCount_append, refCount_mkBooking_ne s req room _ hne, hold, Nat.add_zero]

/-- Reference count of a cons. -/
theorem refCount_cons (b : Booking) (bs : List Booking) (rn : String) :
    refCount (b :: bs) rn = refCount bs rn + (if b.roomNumber = rn then 1 else 0) := by
  by_cases h : b.roomNumber = rn <;> simp [refCount, List.countP_cons, h]

/-- Deleting one booking drops exactly its own contribution to a count. -/
theorem refCount_delete (m1 m2 : List Booking) (b : Booking) (rn : String) :
    refCount (m1 ++ b :: m2) rn
      = refCount (m1 ++ m2) rn + (if b.roomNumber = rn then 1 else 0) := by
  rw [refCount_append, refCount_append, refCount_cons]
  omega

/-- The cancel handler preserves the strengthened occupancy invariant on
every request whose `roomNumber` field is the cancelled booking's room
number (which is what the bundled client always sends). -/
theorem strongInv_cancel (s : Store) (req : CancelReq)
    (hs : strongInv s)
    (hmatch : ∀ b, (findByIdAndDelete s.bookings (req.id.getD "")).1 = some b →
      req.roomNumber = some b.roomNumber) :
    strongInv (cancel s req).1 := by
  obtain ⟨hu, hc⟩ := hs
  by_cases h1 : cancelCheck req = true
  case neg =>
    rw [cancel_validation s req (Bool.eq_false_iff.mpr h1)]
    exact ⟨hu, hc⟩
  case pos =>
  cases h2 : (findByIdAndDelete s.bookings (req.id.getD "")).1 with
  | none =>
    rw [cancel_notFound s req h1 h2]
    exact ⟨hu, hc⟩
  | some b =>
    rw [cancel_success s req b h1 h2]
    rcases findByIdAndDelete_split s.bookings (req.id.getD "") with
      ⟨hf, _, _⟩ | ⟨m1, b0, m2, hbs, hbid, hm1, hf, hrest⟩
    · rw [h2] at hf; cases hf
    · have hb0 : b0 = b := by
        rw [h2] at hf
        exact (Option.some.inj hf).symm
      have hreq : req.roomNumber = some b0.roomNumber := by
        rw [hb0]; exact hmatch b h2
      have hrn : req.roomNumber.getD "" = b0.roomNumber := by rw [hreq]; rfl
      constructor
      · show ((saveRoomAvail s.rooms (req.roomNumber.getD "") true).map
          Room.roomNumber).Nodup
        rw [saveRoomAvail_map_roomNumber]
        exact hu
      · intro r' hr'
        show refCount (findByIdAndDelete s.bookings (req.id.getD "")).2 r'.roomNumber
          = if r'.available then 0 else 1
        rw [hrest]
        have hcount : ∀ rn', refCount s.bookings rn'
            = refCount (m1 ++ m2) rn' + (if b0.roomNumber = rn' then 1 else 0) := by
          intro rn'
          rw [hbs, refCount_delete]
        rcases saveRoomAvail_split s.rooms (req.roomNumber.getD "") true with
          ⟨hfr, hsr⟩ | ⟨l1, rr, l2, hrooms2, hrrn, hl1, hfr, hsr⟩
        · rw [hsr] at hr'
          have hne : r'.roomNumber ≠ req.roomNumber.getD "" :=
            (findOneRoom_eq_none s.rooms _).mp hfr r' hr'
          have hold := hc r' hr'
          have hz : (if b0.roomNumber = r'.roomNumber then 1 else 0) = 0 := by
            rw [if_neg]
            intro hh
            exact hne (by rw [hrn, hh])
          rw [hcount r'.roomNumber, hz, Nat.add_zero] at hold
          exact hold
        · rw [hsr] at hr'
          rcases List.mem_append.mp hr' with hmem | hmem
          · have hne : r'.roomNumber ≠ req.roomNumber.getD "" := hl1 r' hmem
            have hmemr : r' ∈ s.rooms := by
              rw [hrooms2]
              exact List.mem_append.mpr (Or.inl hmem)
            have hold := hc r' hmemr
            have hz : (if b0.roomNumber = r'.roomNumber then 1 else 0) = 0 := by
              rw [if_neg]
              intro hh
              exact hne (by rw [hrn, hh])
            rw [hcount r'.roomNumber, hz, Nat.add_zero] at hold
            exact hold
          · rcases List.mem_cons.mp hmem with hmem | hmem
            · have hmemr : rr ∈ s.rooms := by
                rw [hrooms2]
                exact List.mem_append.mpr (Or.inr (List.mem_cons_self _ _))
              have hold := hc rr hmemr
              have hone : (if b0.roomNumber = rr.roomNumber then 1 else 0) = 1 := by
                rw [if_pos]
                rw [← hrn, hrrn]
              rw [hcount rr.roomNumber, hone] at hold
              have hrn2 : r'.roomNumber = rr.roomNumber := by rw [hmem]
              have hav : r'.available = true := by rw [hmem]
              rw [hrn2, hav]
              by_cases ha : rr.available = true
              · rw [ha] at hold
                simp at hold
              · rw [Bool.eq_false_iff.mpr ha] at hold
                simp at hold
                simpa using hold
            · have hne : r'.roomNumber ≠ req.roomNumber.getD "" := by
                have hu' : ((l1 ++ rr :: l2).map Room.roomNumber).Nodup := by
                  rw [← hrooms2]; exact hu
                have := nodup_split_right l1 l2 rr hu' r' hmem
                rw [hrrn] at this
                exact this
              have hmemr : r' ∈ s.rooms := by
                rw [hrooms2]
                exact List.mem_append.mpr (Or.inr (List.mem_cons_of_mem _ hmem))
              have hold := hc r' hmemr
              have hz : (if b0.roomNumber = r'.roomNumber then 1 else 0) = 0 := by
                rw [if_neg]
                intro hh
                exact hne (by rw [hrn, hh])
              rw [hcount r'.roomNumber, hz, Nat.add_zero] at hold
              exact hold

/-! ### Derived facts used by the claims -/

/-- The deleted booking is gone from the remaining collection when booking
ids are unique. -/
theorem booking_ids_split_not_mem (m1 m2 : List Booking) (b : Booking)
    (hu : ((m1 ++ b :: m2).map Booking.id).Nodup)
    (hm1 : ∀ x ∈ m1, x.id ≠ b.id) :
    b ∉ m1 ++ m2 := by
  rw [List.map_append, List.map_cons] at hu
  have h2 := hu.of_append_right
  have h3 : b.id ∉ m2.map Booking.id := (List.nodup_cons.mp h2).1
  intro hmem
  rcases List.mem_append.mp hmem with hm | hm
  · exact hm1 b hm rfl
  · exact h3 (List.mem_map.mpr ⟨b, hm, rfl⟩)

/-- The strengthened invariant implies the spec's iff-form invariant. -/
theorem strongInv_implies_invariant (s : Store) (hs : strongInv s) : invariant s := by
  intro r hr
  have hocc := hs.2 r hr
  cases hav : r.available with
  | true =>
    rw [hav] at hocc
    simp at hocc
    simp [hav, hocc]
  | false =>
    rw [hav] at hocc
    simp at hocc
    simp [hav, hocc]

/-- The strengthened invariant holds along every well-formed run. -/
theorem strongInv_run (s : Store) (reqs : List Request) (hs : strongInv s)
    (hg : goodRun s reqs) : strongInv (run s reqs) := by
  induction reqs generalizing s with
  | nil => exact hs
  | cons r rs ih =>
    obtain ⟨hgr, hgs⟩ := hg
    apply ih
    · cases r with
      | bookReq br => exact strongInv_book s br hs
      | cancelReq cr => exact strongInv_cancel s cr hs hgr
    · exact hgs

/-- The booking handler leaves the rooms untouched or saves one flag. -/
theorem book_rooms_cases (s : Store) (req : BookReq) :
    (book s req).1.rooms = s.rooms ∨
    (book s req).1.rooms = saveRoomAvail s.rooms (req.roomNumber.getD "") false := by
  by_cases h1 : bookCheck req = true
  · cases h2 : findOneRoom s.rooms (req.roomNumber.getD "") with
    | none =>
      left
      rw [book_notFound s req h1 h2]
    | some room =>
      by_cases h3 : room.available = true
      · right
        rw [book_success s req room h1 h2 h3]
      · left
        rw [book_unavailable s req room h1 h2 (Bool.eq_false_iff.mpr h3)]
  · left
    rw [book_validation s req (Bool.eq_false_iff.mpr h1)]

/-- The cancel handler leaves the rooms untouched or saves one flag. -/
theorem cancel_rooms_cases (s : Store) (req : CancelReq) :
    (cancel s req).1.rooms = s.rooms ∨
    (cancel s req).1.rooms = saveRoomAvail s.rooms (req.roomNumber.getD "") true := by
  by_cases h1 : cancelCheck req = true
  · cases h2 : (findByIdAndDelete s.bookings (req.id.getD "")).1 with
    | none =>
      left
      rw [cancel_notFound s req h1 h2]
    | some b =>
      right
      rw [cancel_success s req b h1 h2]
  · left
    rw [cancel_validation s req (Bool.eq_false_iff.mpr h1)]

/-! ### The claims -/

/-- C1 counterexample: the claimed invariant is not preserved for every
request body.  From the seeded store, book room 101, then cancel that
booking with a body naming room 102: the booking is deleted, room 102 is
"freed", but room 101 stays `available = false` with no booking
referencing it — the invariant fails at the reached state. -/
theorem c1_counterexample_invariant_broken :
    ¬ invariant (run initialStore c1BadReqs) := by
  decide

/-- C1 (amended): the invariant — a room has `available = false` iff
exactly one booking references it — holds at the seeded store and at every
state reached by a run whose cancel requests carry the cancelled booking's
own room number (as the bundled client always does).  The book handler
preserves the strengthened invariant for every request body; the cancel
handler preserves it exactly under that room-number side condition. -/
theorem c1_invariant_amended :
    (∀ reqs, goodRun initialStore reqs → invariant (run initialStore reqs)) ∧
    (∀ s req, strongInv s → strongInv (book s req).1) ∧
    (∀ s req, strongInv s → goodStep s (.cancelReq req) → strongInv (cancel s req).1) ∧
    (∀ s, strongInv s → invariant s) := by
  refine ⟨?_, strongInv_book, ?_, strongInv_implies_invariant⟩
  · intro reqs hg
    exact strongInv_implies_invariant _ (strongInv_run initialStore reqs (by decide) hg)
  · intro s req hs hg
    exact strongInv_cancel s req hs hg

/-- C1 witness: the invariant holds after booking room 101 and cancelling
with the booking's own room number. -/
theorem c1_invariant_amended_witness :
    invariant (run initialStore c1GoodReqs) :=
  c1_invariant_amended.1 c1GoodReqs (by decide)

/-- C2: booking with truthy fields, an existing room, and availability
creates and persists a booking whose `totalAmount` is the room's price
times the parsed day count (equal to `price * days` whenever the submitted
days value is an integer), and returns it with status 201; the room's
`available` flag becomes `false`. -/
theorem c2_book_success (s : Store) (req : BookReq) (room : Room)
    (h1 : bookCheck req = true)
    (h2 : findOneRoom s.rooms (req.roomNumber.getD "") = some room)
    (h3 : room.available = true) :
    (book s req).2 = .created (mkBooking s req room) ∧
    (book s req).1.bookings = s.bookings ++ [mkBooking s req room] ∧
    (mkBooking s req room).totalAmount = room.price * jsParseInt (req.days.getD 0) ∧
    (∀ d : Int, req.days = some ((d : Rat)) →
      (mkBooking s req room).totalAmount = room.price * d) ∧
    (mkBooking s req room).roomNumber = req.roomNumber.getD "" ∧
    findOneRoom (book s req).1.rooms (req.roomNumber.getD "")
      = some { room with available := false } := by
  have hb := book_success s req room h1 h2 h3
  refine ⟨by rw [hb], by rw [hb], rfl, ?_, rfl, ?_⟩
  · intro d hd
    show room.price * jsParseInt (req.days.getD 0) = room.price * d
    rw [hd]
    show room.price * jsParseInt ((d : Rat)) = room.price * d
    rw [jsParseInt_intCast]
  · rw [hb]
    show findOneRoom (saveRoomAvail s.rooms (req.roomNumber.getD "") false)
      (req.roomNumber.getD "") = some { room with available := false }
    rw [findOneRoom_saveRoomAvail_self, h2]
    rfl

/-- C2 witness: booking room 101 for two days on the seeded store returns
the created booking and charges 2000. -/
theorem c2_book_success_witness :
    (book initialStore c2Req).2 = .created (mkBooking initialStore c2Req room101) ∧
    (mkBooking initialStore c2Req room101).totalAmount = 2000 := by
  have h := c2_book_success initialStore c2Req room101 (by decide) (by decide) rfl
  refine ⟨h.1, ?_⟩
  have ht := h.2.2.2.1 2 rfl
  rw [ht]
  decide

/-- C3: a validation-passing booking request for an unknown room gets 404,
and one for an unavailable room gets 400; in both cases the handler
returns the store completely unchanged. -/
theorem c3_book_failure_no_side_effects (s : Store) (req : BookReq)
    (h1 : bookCheck req = true) :
    (findOneRoom s.rooms (req.roomNumber.getD "") = none →
      book s req = (s, .roomNotFound)) ∧
    (∀ room, findOneRoom s.rooms (req.roomNumber.getD "") = some room →
      room.available = false →
      book s req = (s, .roomUnavailable)) :=
  ⟨book_notFound s req h1, fun room => book_unavailable s req room h1⟩

/-- C3 witness: booking room 999 on the seeded store gives 404 without
side effects; booking the occupied room 101 of `c3BusyStore` gives 400
without side effects. -/
theorem c3_book_failure_witness :
    book initialStore c3UnknownReq = (initialStore, BookResp.roomNotFound) ∧
    book c3BusyStore c3BusyReq = (c3BusyStore, BookResp.roomUnavailable) :=
  ⟨(c3_book_failure_no_side_effects initialStore c3UnknownReq (by decide)).1 (by decide),
   (c3_book_failure_no_side_effects c3BusyStore c3BusyReq (by decide)).2
     { roomNumber := "101", roomType := "Single", price := 1000, available := false }
     (by decide) rfl⟩

/-- C4 counterexample: cancelling `c4Booking` (which references room 101)
with a body naming room 102 deletes the booking and reports success, yet
room 101 — the room referenced by the booking — is left unavailable.  The
handler frees the request's room, not the booking's. -/
theorem c4_counterexample_cancel_ignores_booking_room :
    (findByIdAndDelete c4Store.bookings "0").1 = some c4Booking ∧
    c4Booking.roomNumber = "101" ∧
    (cancel c4Store c4BadReq).2 = .cancelled ∧
    findOneRoom (cancel c4Store c4BadReq).1.rooms "101"
      = some { roomNumber := "101", roomType := "Single", price := 1000, available := false } ∧
    c4Booking ∉ (cancel c4Store c4BadReq).1.bookings := by
  refine ⟨by decide, rfl, by decide, by decide, by decide⟩

/-- C4 (amended): when the cancel request names the deleted booking's own
room number (as the bundled client always does), the handler deletes that
booking — it is gone from the collection, whose length drops by one — sets
that room's availability back to `true`, and returns success. -/
theorem c4_cancel_deletes_and_restores (s : Store) (req : CancelReq) (b : Booking)
    (h1 : cancelCheck req = true)
    (h2 : (findByIdAndDelete s.bookings (req.id.getD "")).1 = some b)
    (hmatch : req.roomNumber = some b.roomNumber)
    (hids : (s.bookings.map Booking.id).Nodup) :
    (cancel s req).2 = .cancelled ∧
    b ∉ (cancel s req).1.bookings ∧
    (cancel s req).1.bookings.length + 1 = s.bookings.length ∧
    (∀ r, findOneRoom (cancel s req).1.rooms b.roomNumber = some r →
      r.available = true) := by
  have hrn : req.roomNumber.getD "" = b.roomNumber := by rw [hmatch]; rfl
  have hcs := cancel_success s req b h1 h2
  rcases findByIdAndDelete_split s.bookings (req.id.getD "") with
    ⟨hf, _, _⟩ | ⟨m1, b0, m2, hbs, hbid, hm1, hf, hrest⟩
  · rw [h2] at hf; cases hf
  · have hb0 : b0 = b := by
      rw [h2] at hf
      exact (Option.some.inj hf).symm
    rw [hb0] at hbs hbid
    refine ⟨by rw [hcs], ?_, ?_, ?_⟩
    · rw [hcs]
      show b ∉ (findByIdAndDelete s.bookings (req.id.getD "")).2
      rw [hrest]
      refine booking_ids_split_not_mem m1 m2 b ?_ ?_
      · rw [← hbs]
        exact hids
      · intro x hx
        rw [hbid]
        exact hm1 x hx
    · rw [hcs]
      show (findByIdAndDelete s.bookings (req.id.getD "")).2.length + 1
        = s.bookings.length
      rw [hrest, hbs]
      simp
      omega
    · intro r hr
      have hr2 : findOneRoom (saveRoomAvail s.rooms (req.roomNumber.getD "") true)
          b.roomNumber = some r := by
        rw [hcs] at hr
        exact hr
      rw [← hrn, findOneRoom_saveRoomAvail_self] at hr2
      rcases Option.map_eq_some'.mp hr2 with ⟨x, _, hx⟩
      rw [← hx]

/-- C4 witness: cancelling `c4Booking` with its own room number succeeds
and removes the booking. -/
theorem c4_cancel_deletes_and_restores_witness :
    (cancel c4Store c4GoodReq).2 = CancelResp.cancelled ∧
    (cancel c4Store c4GoodReq).1.bookings.length + 1 = c4Store.bookings.length := by
  have h := c4_cancel_deletes_and_restores c4Store c4GoodReq c4Booking
    (by decide) (by decide) (by decide) (by decide)
  exact ⟨h.1, h.2.2.1⟩

/-- C5: a cancel request with truthy `id` and `roomNumber` whose id matches
no booking returns 404 and the store completely unchanged. -/
theorem c5_cancel_unknown_booking (s : Store) (req : CancelReq)
    (h1 : cancelCheck req = true)
    (h2 : (findByIdAndDelete s.bookings (req.id.getD "")).1 = none) :
    cancel s req = (s, .bookingNotFound) :=
  cancel_notFound s req h1 h2

/-- C5 witness: cancelling booking 42 on the seeded (booking-free) store. -/
theorem c5_cancel_unknown_booking_witness :
    cancel initialStore c5Req = (initialStore, CancelResp.bookingNotFound) :=
  c5_cancel_unknown_booking initialStore c5Req (by decide) (by decide)

/-- C6 counterexample: a booking request with `days = -2` is not rejected.
Every field of `c6Req` is truthy in JavaScript (negative numbers are
truthy), so the guard passes and the handler persists a booking with
`days = -2` and `totalAmount = -2000` instead of failing with 400. -/
theorem c6_counterexample_negative_days :
    bookCheck c6Req = true ∧
    c6Req.days = some (-2 : Rat) ∧
    (book initialStore c6Req).2 ≠ .validationErr ∧
    (book initialStore c6Req).1.bookings.map Booking.days = [-2] ∧
    (book initialStore c6Req).1.bookings.map Booking.totalAmount = [-2000] := by
  refine ⟨by decide, rfl, by decide, by decide, by decide⟩

/-- C6 (amended): a booking request with a missing field, an empty string
field, or `days = 0` — the values the JavaScript guard treats as falsy —
fails with 400 and leaves the store unchanged.  Negative day counts are
truthy and are not rejected. -/
theorem c6_validation_amended (s : Store) (req : BookReq)
    (h : req.guestName = none ∨ req.guestName = some "" ∨
      req.guestPhone = none ∨ req.guestPhone = some "" ∨
      req.roomNumber = none ∨ req.roomNumber = some "" ∨
      req.days = none ∨ req.days = some 0) :
    book s req = (s, .validationErr) := by
  apply book_validation
  rcases h with h | h | h | h | h | h | h | h <;>
    simp [bookCheck, truthyStr, truthyNum, h]

/-- C6 witness: a request without a guest name is rejected with 400 and no
side effects. -/
theorem c6_validation_amended_witness :
    book initialStore c6MissingReq = (initialStore, BookResp.validationErr) :=
  c6_validation_amended initialStore c6MissingReq (Or.inl rfl)

/-- C7: the frame property of both mutating handlers.  The rooms list after
any book or cancel request is either exactly the old one, or the old one
with a single room — the first whose number matches the request's
`roomNumber` — replaced by the same room with only its `available` flag
set (to `false` for book, `true` for cancel).  In particular every room's
`roomNumber`, `roomType` and `price`, and all other rooms, are unchanged. -/
theorem c7_frame_only_available_flag (s : Store) (breq : BookReq) (creq : CancelReq) :
    ((book s breq).1.rooms = s.rooms ∨
      ∃ l1 r l2, s.rooms = l1 ++ r :: l2 ∧
        r.roomNumber = breq.roomNumber.getD "" ∧
        (book s breq).1.rooms = l1 ++ { r with available := false } :: l2) ∧
    ((cancel s creq).1.rooms = s.rooms ∨
      ∃ l1 r l2, s.rooms = l1 ++ r :: l2 ∧
        r.roomNumber = creq.roomNumber.getD "" ∧
        (cancel s creq).1.rooms = l1 ++ { r with available := true } :: l2) := by
  constructor
  · rcases book_rooms_cases s breq with hcase | hcase
    · exact Or.inl hcase
    · rcases saveRoomAvail_split s.rooms (breq.roomNumber.getD "") false with
        ⟨_, hsr⟩ | ⟨l1, r, l2, hrooms, hrn, _, _, hsr⟩
      · exact Or.inl (by rw [hcase, hsr])
      · exact Or.inr ⟨l1, r, l2, hrooms, hrn, by rw [hcase, hsr]⟩
  · rcases cancel_rooms_cases s creq with hcase | hcase
    · exact Or.inl hcase
    · rcases saveRoomAvail_split s.rooms (creq.roomNumber.getD "") true with
        ⟨_, hsr⟩ | ⟨l1, r, l2, hrooms, hrn, _, _, hsr⟩
      · exact Or.inl (by rw [hcase, hsr])
      · exact Or.inr ⟨l1, r, l2, hrooms, hrn, by rw [hcase, hsr]⟩

/-- C8: on a successful cancellation the room freed is the one named by the
request body — the first room whose number equals the request's
`roomNumber` gets `available := true`, rooms with other numbers are looked
up unchanged, and when the request's `roomNumber` matches no room the
rooms list is completely untouched while the handler still reports
success. -/
theorem c8_cancel_updates_request_room (s : Store) (req : CancelReq) (b : Booking)
    (h1 : cancelCheck req = true)
    (h2 : (findByIdAndDelete s.bookings (req.id.getD "")).1 = some b) :
    (cancel s req).2 = .cancelled ∧
    (cancel s req).1.rooms = saveRoomAvail s.rooms (req.roomNumber.getD "") true ∧
    (findOneRoom s.rooms (req.roomNumber.getD "") = none →
      (cancel s req).1.rooms = s.rooms) ∧
    (∀ r, findOneRoom (cancel s req).1.rooms (req.roomNumber.getD "") = some r →
      r.available = true) ∧
    (∀ rn', rn' ≠ req.roomNumber.getD "" →
      findOneRoom (cancel s req).1.rooms rn' = findOneRoom s.rooms rn') := by
  have hcs := cancel_success s req b h1 h2
  refine ⟨by rw [hcs], by rw [hcs], ?_, ?_, ?_⟩
  · intro hnone
    rw [hcs]
    show saveRoomAvail s.rooms (req.roomNumber.getD "") true = s.rooms
    exact saveRoomAvail_eq_of_none _ _ _ hnone
  · intro r hr
    have hr2 : findOneRoom (saveRoomAvail s.rooms (req.roomNumber.getD "") true)
        (req.roomNumber.getD "") = some r := by
      rw [hcs] at hr
      exact hr
    rw [findOneRoom_saveRoomAvail_self] at hr2
    rcases Option.map_eq_some'.mp hr2 with ⟨x, _, hx⟩
    rw [← hx]
  · intro rn' hne
    rw [hcs]
    show findOneRoom (saveRoomAvail s.rooms (req.roomNumber.getD "") true) rn'
      = findOneRoom s.rooms rn'
    exact findOneRoom_saveRoomAvail_ne s.rooms _ rn' true hne

/-- C8 witness: cancelling `c8Booking` with a room number matching no room
succeeds and leaves every room untouched (room 101 stays unavailable). -/
theorem c8_cancel_updates_request_room_witness :
    (cancel c8Store c8Req).2 = CancelResp.cancelled ∧
    (cancel c8Store c8Req).1.rooms = c8Store.rooms := by
  have h := c8_cancel_updates_request_room c8Store c8Req c8Booking (by decide) (by decide)
  exact ⟨h.1, h.2.2.1 (by decide)⟩

/-- C9: the rooms listing is a permutation of the stored rooms sorted
ascending by `roomNumber`, and the bookings listing is a permutation of
the stored bookings sorted descending by `createdAt` (newest first). -/
theorem c9_listings_sorted (s : Store) :
    List.Perm (listRooms s) s.rooms ∧
    (listRooms s).Pairwise (fun a b => a.roomNumber ≤ b.roomNumber) ∧
    List.Perm (listBookings s) s.bookings ∧
    (listBookings s).Pairwise (fun a b => b.createdAt ≤ a.createdAt) := by
  have htransR : ∀ a b c : Room, decide (a.roomNumber ≤ b.roomNumber) = true →
      decide (b.roomNumber ≤ c.roomNumber) = true →
      decide (a.roomNumber ≤ c.roomNumber) = true := by
    intro a b c hab hbc
    simp only [decide_eq_true_eq] at hab hbc ⊢
    exact le_trans hab hbc
  have htotalR : ∀ a b : Room, (decide (a.roomNumber ≤ b.roomNumber) ||
      decide (b.roomNumber ≤ a.roomNumber)) = true := by
    intro a b
    simp only [Bool.or_eq_true, decide_eq_true_eq]
    exact le_total a.roomNumber b.roomNumber
  have htransB : ∀ a b c : Booking, decide (b.createdAt ≤ a.createdAt) = true →
      decide (c.createdAt ≤ b.createdAt) = true →
      decide (c.createdAt ≤ a.createdAt) = true := by
    intro a b c hab hbc
    simp only [decide_eq_true_eq] at hab hbc ⊢
    exact le_trans hbc hab
  have htotalB : ∀ a b : Booking, (decide (b.createdAt ≤ a.createdAt) ||
      decide (a.createdAt ≤ b.createdAt)) = true := by
    intro a b
    simp only [Bool.or_eq_true, decide_eq_true_eq]
    exact le_total b.createdAt a.createdAt
  refine ⟨List.mergeSort_perm s.rooms _, ?_, List.mergeSort_perm s.bookings _, ?_⟩
  · have h := List.sorted_mergeSort htransR htotalR s.rooms
    show (List.mergeSort s.rooms
      (fun a b => decide (a.roomNumber ≤ b.roomNumber))).Pairwise
        (fun a b => a.roomNumber ≤ b.roomNumber)
    exact h.imp (fun hab => by simpa using hab)
  · have h := List.sorted_mergeSort htransB htotalB s.bookings
    show (List.mergeSort s.bookings
      (fun a b => decide (b.createdAt ≤ a.createdAt))).Pairwise
        (fun a b => b.createdAt ≤ a.createdAt)
    exact h.imp (fun hab => by simpa using hab)

/-- C10: the persisted booking stores the guest name and phone with
`trim` applied to the submitted strings, and both `days` and
`totalAmount` are computed from the `parseInt` truncation of the submitted
days value (`q.num.tdiv q.den` is truncation toward zero). -/
theorem c10_trim_and_parseInt (s : Store) (req : BookReq) (room : Room)
    (h1 : bookCheck req = true)
    (h2 : findOneRoom s.rooms (req.roomNumber.getD "") = some room)
    (h3 : room.available = true) :
    (book s req).2 = .created (mkBooking s req room) ∧
    (book s req).1.bookings = s.bookings ++ [mkBooking s req room] ∧
    (mkBooking s req room).guestName = (req.guestName.getD "").trim ∧
    (mkBooking s req room).guestPhone = (req.guestPhone.getD "").trim ∧
    (∀ q : Rat, req.days = some q →
      (mkBooking s req room).days = q.num.tdiv q.den ∧
      (mkBooking s req room).totalAmount = room.price * q.num.tdiv q.den) := by
  have hb := book_success s req room h1 h2 h3
  refine ⟨by rw [hb], by rw [hb], rfl, rfl, ?_⟩
  intro q hq
  constructor
  · show jsParseInt (req.days.getD 0) = q.num.tdiv q.den
    rw [hq]
    rfl
  · show room.price * jsParseInt (req.days.getD 0) = room.price * q.num.tdiv q.den
    rw [hq]
    rfl

/-- C10 witness: submitting 5/2 days books 2 days for 2000, and the
response carries the created booking. -/
theorem c10_trim_and_parseInt_witness :
    (book initialStore c10Req).2 = .created (mkBooking initialStore c10Req room101) ∧
    (mkBooking initialStore c10Req room101).days = 2 ∧
    (mkBooking initialStore c10Req room101).totalAmount = 2000 := by
  have h := c10_trim_and_parseInt initialStore c10Req room101 (by decide) (by decide) rfl
  have hq := h.2.2.2.2 (mkRat 5 2) rfl
  refine ⟨h.1, ?_, ?_⟩
  · rw [hq.1]
    decide
  · rw [hq.2]
    decide

end Hotel
